import Mathlib

/-!
Verification of the BassAES67 repository's plugin adapter code
(`bass-addon/bassraw.cpp` together with the headers `bass-addon.h` and
`bass_aes67.h`) against its natural-language specification.

The embedding below translates the C source into Lean: machine integers
(DWORD/QWORD) become `Nat` with explicit truncation where the source casts,
the thread-local error slot written through `bassfunc->SetError` becomes an
`Option Nat` describing what (if anything) a call wrote there, and the host
engine's file routines (`bassfunc->file.*`) become a small explicit file
state.
-/

/- Constants from `bass.h`, the host engine's API (an external collaborator
of the add-on; the values are the published BASS 2.4 ones). -/

def BASS_OK : Nat := 0

def BASS_ERROR_POSITION : Nat := 7

def BASS_ERROR_ILLPARAM : Nat := 20

def BASS_ERROR_NOTAVAIL : Nat := 37

/-- BASS_POS_BYTE, the byte positioning mode (bass.h). -/
def BASS_POS_BYTE : Nat := 0

/-- BASS_STREAMPROC_END, the end-of-stream flag OR-ed into a STREAMPROC
return value (bass.h). -/
def BASS_STREAMPROC_END : Nat := 0x80000000

/-- BASSCONFIG_SET flag of a BASSCONFIGPROC call (bass-addon.h). -/
def BASSCONFIG_SET : Nat := 1

/-- BASSCONFIG_PTR flag of a BASSCONFIGPROC call (bass-addon.h). -/
def BASSCONFIG_PTR : Nat := 2

/-- BASS_CTYPE_STREAM_AES67, the AES67 channel type (bass_aes67.h line 16). -/
def BASS_CTYPE_STREAM_AES67 : Nat := 0x1f200

/-- Modelled from the spec: the header `bassraw.h` included by
`bassraw.cpp` is not under `src/`; it declares the raw PCM sample plugin's
own channel type `BASS_CTYPE_STREAM_RAW`, which the spec treats as
belonging to a separate illustration plugin, distinct from the AES67
add-on whose channel type is `BASS_CTYPE_STREAM_AES67 = 0x1f200`. Its
exact numeric value is immaterial to everything below except that, being a
different stream type's identifier, it differs from the AES67 one; a
representative value is used. -/
def BASS_CTYPE_STREAM_RAW : Nat := 0x10000

/-- Modelled from the spec: `bassraw.h` (absent from `src/`) declares the
raw plugin's frequency config option number. The config handler's
behaviour depends only on this being a case label distinct from the
`chans` one, which the source guarantees (duplicate `case` labels would
not compile); a representative value is used. -/
def BASS_CONFIG_RAW_FREQ : Nat := 0x12000

/-- Modelled from the spec: `bassraw.h` (absent from `src/`) declares the
raw plugin's channel-count config option number, a case label distinct
from the `freq` one. -/
def BASS_CONFIG_RAW_CHANS : Nat := 0x12001

/-- QWORD value of (QWORD)-1, the 64-bit failure sentinel produced by the
`errorn` macro (bass-addon.h line 243). -/
def QWORDneg1 : Nat := 18446744073709551615

/-- HSYNC (a DWORD) value of -1, the 32-bit "let BASS handle it" sentinel
returned by `RAWSTREAM::SetSync`. -/
def HSYNCneg1 : Nat := 4294967295

/-- SYNCTYPEMASK (bassraw.cpp line 53). -/
def SYNCTYPEMASK : Nat := 0x00ffffff

namespace config

/-- The two static config variables of `namespace config`
(bassraw.cpp line 29): `freq = 44100, chans = 2`. -/
structure ConfigState where
  freq : Nat
  chans : Nat
deriving DecidableEq, Repr

/-- Handler, the BASSCONFIGPROC registered by the plugin
(bassraw.cpp lines 32-49). The C routine reads or writes the DWORD at
`*value`; here `value` is the DWORD read on entry and the third component
of the result is the DWORD stored there on exit (unchanged for a set or an
unhandled call). The result is (return value, new config state, *value). -/
def Handler (option flags value : Nat) (st : ConfigState) :
    Bool × ConfigState × Nat :=
  if flags &&& BASSCONFIG_PTR = 0 then
    if option = BASS_CONFIG_RAW_FREQ then
      if flags &&& BASSCONFIG_SET ≠ 0 then (true, { st with freq := value }, value)
      else (true, st, st.freq)
    else if option = BASS_CONFIG_RAW_CHANS then
      if flags &&& BASSCONFIG_SET ≠ 0 then (true, { st with chans := value }, value)
      else (true, st, st.chans)
    else (false, st, value)
  else (false, st, value)

end config

/-- State of a host file object (`BASSFILE`), as driven through the
`bassfunc->file` routines the add-on calls: a byte array and a read
position. -/
structure FileState where
  data : List Nat
  pos : Nat
deriving DecidableEq, Repr

/-- Host `bassfunc->file.Read`: reads up to `len` bytes from the current
position, returning the count read, and advances the position. -/
def fileRead (f : FileState) (len : Nat) : Nat × FileState :=
  let n := min len (f.data.length - f.pos)
  (n, { f with pos := f.pos + n })

/-- Host `bassfunc->file.Eof`: whether the read position has reached the
end of the data. -/
def fileEof (f : FileState) : Bool :=
  decide (f.data.length ≤ f.pos)

/-- The SYNC record of `RAWSTREAM` (bassraw.cpp lines 62-67); the `next`
pointer chain is represented by the containing list. -/
structure SYNC where
  handle : Nat
  type : Nat
  param : Nat
deriving DecidableEq, Repr

/-- The RAWSTREAM record (bassraw.cpp lines 56-85) together with the two
pieces of host-side state its methods read: `delivered` models
`bassfunc->GetPosition(handle, (QWORD)-1, BASS_POS_BYTE)`, the host's
count of bytes the stream has delivered so far, and `nextSync` models the
host's next fresh sync handle from `bassfunc->NewSync`. -/
structure RAWSTREAM where
  file : FileState
  length : Nat
  syncs : List SYNC
  delivered : Nat
  nextSync : Nat
deriving DecidableEq, Repr

/-- Initialization of a fresh RAWSTREAM by StreamCreateProc
(bassraw.cpp lines 109-143): the record is calloc-zeroed (empty sync
list), the file attached, and `length` set to the file length
(`bassfunc->file.GetPos(file, BASS_FILEPOS_END)`). No bytes have been
delivered yet. -/
def streamCreate (data : List Nat) : RAWSTREAM :=
  { file := { data := data, pos := 0 }
    length := data.length
    syncs := []
    delivered := 0
    nextSync := 1 }

/-- RAWSTREAM::GetLength (bassraw.cpp lines 193-198). Returns the QWORD
result and the error code written to the thread-local slot (`errorn`
writes the code and returns (QWORD)-1; `noerrorn` writes BASS_OK). -/
def RAWSTREAM.GetLength (s : RAWSTREAM) (mode : Nat) : Nat × Option Nat :=
  if mode ≠ BASS_POS_BYTE then (QWORDneg1, some BASS_ERROR_NOTAVAIL)
  else (s.length, some BASS_OK)

/-- RAWSTREAM::GetInfo (bassraw.cpp lines 201-206): writes only the
`ctype` field of the caller's BASS_CHANNELINFO. -/
structure BASS_CHANNELINFO where
  freq : Nat
  chans : Nat
  ctype : Nat
deriving DecidableEq, Repr

def RAWSTREAM.GetInfo (s : RAWSTREAM) (info : BASS_CHANNELINFO) :
    BASS_CHANNELINFO :=
  { info with ctype := BASS_CTYPE_STREAM_RAW }

/-- RAWSTREAM::CanSetPosition (bassraw.cpp lines 210-216). The C code
compares `(BYTE)mode` — the low byte only — against BASS_POS_BYTE, then
range-checks `pos`; `return true` touches no error state. Result is
(return value, error code written). -/
def RAWSTREAM.CanSetPosition (s : RAWSTREAM) (pos mode : Nat) :
    Bool × Option Nat :=
  if mode % 256 ≠ BASS_POS_BYTE then (false, some BASS_ERROR_NOTAVAIL)
  else if s.length ≤ pos then (false, some BASS_ERROR_POSITION)
  else (true, none)

/-- The set of sync types handled by the stream itself: the `switch` in
RAWSTREAM::SetSync (bassraw.cpp lines 234-239) lists no cases before
`default`, so this set is empty. -/
def definedSyncTypes : List Nat := []

/-- RAWSTREAM::SetSync (bassraw.cpp lines 229-254). A type outside
`definedSyncTypes` hits the `default:` branch, returning -1 (as an HSYNC
DWORD) with no error-state write and no state change; a listed type would
run the install path (host NewSync, push onto the sync list, `noerrorn`).
Result is (return value, error code written, new stream state). -/
def RAWSTREAM.SetSync (s : RAWSTREAM) (ty param : Nat) :
    Nat × Option Nat × RAWSTREAM :=
  if (ty &&& SYNCTYPEMASK) ∈ definedSyncTypes then
    (s.nextSync, some BASS_OK,
      { s with
        syncs := { handle := s.nextSync, type := ty &&& SYNCTYPEMASK,
                   param := param } :: s.syncs
        nextSync := s.nextSync + 1 })
  else (HSYNCneg1, none, s)

/-- The unlink loop of RAWSTREAM::RemoveSync (bassraw.cpp lines 260-266):
walk the chain, unlink and free the first node whose handle matches, then
`break`. -/
def removeSyncLoop : List SYNC → Nat → List SYNC
  | [], _ => []
  | x :: rest, h => if x.handle = h then rest else x :: removeSyncLoop rest h

/-- RAWSTREAM::RemoveSync (bassraw.cpp lines 257-267). -/
def RAWSTREAM.RemoveSync (s : RAWSTREAM) (h : Nat) : RAWSTREAM :=
  { s with syncs := removeSyncLoop s.syncs h }

/-- RAWSTREAM::StreamProc (bassraw.cpp lines 345-353): read from the file;
if the file then reports end-of-file, set `length` to the host position
plus the bytes read and OR the END flag into the return value. The host's
delivered-byte position advances by the bytes returned. Result is
(return value, new stream state). -/
def RAWSTREAM.StreamProc (s : RAWSTREAM) (len : Nat) : Nat × RAWSTREAM :=
  let rd := fileRead s.file len
  if fileEof rd.2 then
    (rd.1 ||| BASS_STREAMPROC_END,
      { s with file := rd.2, length := s.delivered + rd.1,
               delivered := s.delivered + rd.1 })
  else
    (rd.1, { s with file := rd.2, delivered := s.delivered + rd.1 })

/-- BASS_AES67_OUTPUT_CONFIG (bass_aes67.h lines 72-80). -/
structure BASS_AES67_OUTPUT_CONFIG where
  multicast_addr : List Nat
  port : Nat
  interface_addr : List Nat
  payload_type : Nat
  channels : Nat
  sample_rate : Nat
  packet_time_us : Nat
deriving DecidableEq, Repr

/-- The packet times the spec admits for a TX output (section 4.3). -/
def validPacketTimes : List Nat := [125, 250, 333, 1000, 5000]

/-- A created TX output record: its derived samples-per-packet and the
configuration it was created from. -/
structure AES67Output where
  samples_per_packet : Nat
  cfg : BASS_AES67_OUTPUT_CONFIG
deriving DecidableEq, Repr

/-- Modelled from the spec: the implementation of
`BASS_AES67_OutputCreate` is not under `src/` (only its declaration in
`bass_aes67.h` line 94 is). Per spec section 4.3 it validates
`packet_time_us` against {125, 250, 333, 1000, 5000}, failing with
ILLPARAM (null handle) otherwise, and computes samples-per-packet as
rate × packet_time_us / 1_000_000. Result is (created output or none,
error code written). -/
def BASS_AES67_OutputCreate (cfg : BASS_AES67_OUTPUT_CONFIG) :
    Option AES67Output × Option Nat :=
  if cfg.packet_time_us ∈ validPacketTimes then
    (some { samples_per_packet := cfg.sample_rate * cfg.packet_time_us / 1000000,
            cfg := cfg },
     some BASS_OK)
  else (none, some BASS_ERROR_ILLPARAM)

/-- Claim C1 (amended): CanSetPosition returns false with error NOTAVAIL
exactly when the low byte of the mode is not BYTE; for byte positioning it
returns false with error POSITION when pos is at or beyond the stream
length, and returns true (touching no error state) when pos is inside it. -/
theorem C1_canSetPosition (s : RAWSTREAM) (pos mode : Nat) :
    (mode % 256 ≠ BASS_POS_BYTE →
      s.CanSetPosition pos mode = (false, some BASS_ERROR_NOTAVAIL)) ∧
    (mode % 256 = BASS_POS_BYTE → s.length ≤ pos →
      s.CanSetPosition pos mode = (false, some BASS_ERROR_POSITION)) ∧
    (mode % 256 = BASS_POS_BYTE → pos < s.length →
      s.CanSetPosition pos mode = (true, none)) := by
  refine ⟨fun h => ?_, fun h hle => ?_, fun h hlt => ?_⟩
  · simp [RAWSTREAM.CanSetPosition, h]
  · simp [RAWSTREAM.CanSetPosition, h, hle]
  · simp [RAWSTREAM.CanSetPosition, h, Nat.not_le.mpr hlt]

/-- Claim C1 counterexample: on a fresh one-byte stream, CanSetPosition
with pos 0 in BYTE mode returns true and writes no error code, refuting
"always returns false with NOTAVAIL". -/
theorem C1_counterexample :
    (RAWSTREAM.CanSetPosition (streamCreate [0]) 0 0).1 = true ∧
    (RAWSTREAM.CanSetPosition (streamCreate [0]) 0 0).2 = none := by
  exact ⟨by decide, by decide⟩

/-- Claim C1 witness: the three branches of the amended statement at
concrete inputs. -/
theorem C1_witness :
    RAWSTREAM.CanSetPosition (streamCreate [0]) 0 1 =
      (false, some BASS_ERROR_NOTAVAIL) ∧
    RAWSTREAM.CanSetPosition (streamCreate [0]) 5 0 =
      (false, some BASS_ERROR_POSITION) ∧
    RAWSTREAM.CanSetPosition (streamCreate [0]) 0 0 = (true, none) :=
  ⟨(C1_canSetPosition (streamCreate [0]) 0 1).1 (by decide),
   (C1_canSetPosition (streamCreate [0]) 5 0).2.1 (by decide) (by decide),
   (C1_canSetPosition (streamCreate [0]) 0 0).2.2 (by decide) (by decide)⟩

/-- Claim C2 (amended): for every mode other than BYTE, GetLength returns
the QWORD failure sentinel with error NOTAVAIL; for BYTE mode it succeeds
(error BASS_OK) and returns the stream's recorded length field — the file
length latched at create time and rewritten at end-of-file — not the count
of bytes delivered so far. -/
theorem C2_getLength (s : RAWSTREAM) (mode : Nat) :
    (mode ≠ BASS_POS_BYTE →
      s.GetLength mode = (QWORDneg1, some BASS_ERROR_NOTAVAIL)) ∧
    (mode = BASS_POS_BYTE → s.GetLength mode = (s.length, some BASS_OK)) := by
  refine ⟨fun h => ?_, fun h => ?_⟩ <;> simp [RAWSTREAM.GetLength, h]

/-- Claim C2 counterexample: after delivering 2 of the 4 bytes of a file,
GetLength in BYTE mode returns 4 (the file length), not the 2 bytes
delivered so far, refuting "returns the count of delivered bytes". -/
theorem C2_counterexample :
    ((RAWSTREAM.StreamProc (streamCreate [1, 2, 3, 4]) 2).2).delivered = 2 ∧
    (RAWSTREAM.GetLength ((RAWSTREAM.StreamProc (streamCreate [1, 2, 3, 4]) 2).2)
        BASS_POS_BYTE).1 = 4 := by
  exact ⟨by decide, by decide⟩

/-- Claim C2 witness: both branches of the amended statement at concrete
inputs. -/
theorem C2_witness :
    RAWSTREAM.GetLength (streamCreate [1, 2]) 1 =
      (QWORDneg1, some BASS_ERROR_NOTAVAIL) ∧
    RAWSTREAM.GetLength (streamCreate [1, 2]) BASS_POS_BYTE =
      ((streamCreate [1, 2]).length, some BASS_OK) :=
  ⟨(C2_getLength (streamCreate [1, 2]) 1).1 (by decide),
   (C2_getLength (streamCreate [1, 2]) BASS_POS_BYTE).2 rfl⟩

/-- Claim C3: for each of the two readable and writable options the config
handler recognizes (freq and chans), setting a value and then getting it
succeeds both times and the get reads back exactly the value that was
set. -/
theorem C3_configRoundTrip (st : config.ConfigState) (v w k : Nat)
    (hk : k = BASS_CONFIG_RAW_FREQ ∨ k = BASS_CONFIG_RAW_CHANS) :
    (config.Handler k BASSCONFIG_SET v st).1 = true ∧
    (config.Handler k 0 w (config.Handler k BASSCONFIG_SET v st).2.1).1 = true ∧
    (config.Handler k 0 w (config.Handler k BASSCONFIG_SET v st).2.1).2.2 = v := by
  rcases hk with h | h <;> subst h <;>
    simp [config.Handler, BASS_CONFIG_RAW_FREQ, BASS_CONFIG_RAW_CHANS,
      BASSCONFIG_SET, BASSCONFIG_PTR]

/-- Claim C3 witness: a set/get round trip of the freq option at a
concrete value. -/
theorem C3_witness :
    (config.Handler BASS_CONFIG_RAW_FREQ BASSCONFIG_SET 96000
        { freq := 44100, chans := 2 }).1 = true ∧
    (config.Handler BASS_CONFIG_RAW_FREQ 0 0
        (config.Handler BASS_CONFIG_RAW_FREQ BASSCONFIG_SET 96000
          { freq := 44100, chans := 2 }).2.1).1 = true ∧
    (config.Handler BASS_CONFIG_RAW_FREQ 0 0
        (config.Handler BASS_CONFIG_RAW_FREQ BASSCONFIG_SET 96000
          { freq := 44100, chans := 2 }).2.1).2.2 = 96000 :=
  C3_configRoundTrip { freq := 44100, chans := 2 } 96000 0 BASS_CONFIG_RAW_FREQ
    (Or.inl rfl)

/-- Claim C4: for every sync type whose masked value is outside the set of
sync types the stream defines (which is empty in this source), SetSync
returns the -1 sentinel and leaves the stream — in particular its sync
list — unchanged; conversely the sync list only ever changes for a
stream-defined type. -/
theorem C4_setSync :
    (∀ (s : RAWSTREAM) (ty param : Nat),
        (ty &&& SYNCTYPEMASK) ∉ definedSyncTypes →
        (s.SetSync ty param).1 = HSYNCneg1 ∧ (s.SetSync ty param).2.2 = s) ∧
    (∀ (s : RAWSTREAM) (ty param : Nat),
        ((s.SetSync ty param).2.2).syncs ≠ s.syncs →
        (ty &&& SYNCTYPEMASK) ∈ definedSyncTypes) := by
  constructor
  · intro s ty param h
    simp [RAWSTREAM.SetSync, h]
  · intro s ty param hne
    by_cases hm : (ty &&& SYNCTYPEMASK) ∈ definedSyncTypes
    · exact hm
    · simp [RAWSTREAM.SetSync, hm] at hne

/-- Claim C4 witness: SetSync at a concrete type returns -1 and leaves the
stream unchanged. -/
theorem C4_witness :
    (RAWSTREAM.SetSync (streamCreate [0]) 0 0).1 = HSYNCneg1 ∧
    (RAWSTREAM.SetSync (streamCreate [0]) 0 0).2.2 = streamCreate [0] :=
  C4_setSync.1 (streamCreate [0]) 0 0 (by decide)

/-- Claim C5 (amended): GetInfo sets the channel-info ctype field to
BASS_CTYPE_STREAM_RAW, the raw PCM sample plugin's channel type, which is
not the AES67 channel type constant. -/
theorem C5_getInfo (s : RAWSTREAM) (info : BASS_CHANNELINFO) :
    (s.GetInfo info).ctype = BASS_CTYPE_STREAM_RAW ∧
    (s.GetInfo info).ctype ≠ BASS_CTYPE_STREAM_AES67 :=
  ⟨rfl, by show BASS_CTYPE_STREAM_RAW ≠ BASS_CTYPE_STREAM_AES67; decide⟩

/-- Claim C5 counterexample: on a concrete stream and zeroed channel info,
the ctype GetInfo writes is not STREAM_AES67 (0x1f200). -/
theorem C5_counterexample :
    (RAWSTREAM.GetInfo (streamCreate [0])
        { freq := 0, chans := 0, ctype := 0 }).ctype ≠
      BASS_CTYPE_STREAM_AES67 := by
  decide

/-- Claim C8: OutputCreate rejects every config whose packet_time_us lies
outside {125, 250, 333, 1000, 5000} with error ILLPARAM and a null handle;
for a valid config the created output's samples-per-packet is
rate × packet_time_us / 1_000_000. -/
theorem C8_outputCreate (cfg : BASS_AES67_OUTPUT_CONFIG) :
    (cfg.packet_time_us ∉ validPacketTimes →
      BASS_AES67_OutputCreate cfg = (none, some BASS_ERROR_ILLPARAM)) ∧
    (cfg.packet_time_us ∈ validPacketTimes →
      ∃ out, (BASS_AES67_OutputCreate cfg).1 = some out ∧
        out.samples_per_packet =
          cfg.sample_rate * cfg.packet_time_us / 1000000) := by
  constructor
  · intro h
    simp [BASS_AES67_OutputCreate, h]
  · intro h
    refine ⟨{ samples_per_packet := cfg.sample_rate * cfg.packet_time_us / 1000000,
              cfg := cfg }, ?_, rfl⟩
    simp [BASS_AES67_OutputCreate, h]

/-- Claim C8 witness: a 300 µs packet time is rejected with ILLPARAM and a
null handle; a valid 48 kHz / 1 ms config yields 48 samples per packet. -/
theorem C8_witness :
    BASS_AES67_OutputCreate
      { multicast_addr := [239, 69, 83, 67], port := 5004,
        interface_addr := [0, 0, 0, 0], payload_type := 96, channels := 2,
        sample_rate := 48000, packet_time_us := 300 } =
      (none, some BASS_ERROR_ILLPARAM) ∧
    ∃ out,
      (BASS_AES67_OutputCreate
        { multicast_addr := [239, 69, 83, 67], port := 5004,
          interface_addr := [0, 0, 0, 0], payload_type := 96, channels := 2,
          sample_rate := 48000, packet_time_us := 1000 }).1 = some out ∧
      out.samples_per_packet = 48000 * 1000 / 1000000 :=
  ⟨(C8_outputCreate _).1 (by decide), (C8_outputCreate _).2 (by decide)⟩

/-- Claim C9: a config-handler call with the pointer flag set, or with an
option outside the recognized pair, returns false and leaves the stored
freq and chans unchanged; and any call with the SET flag clear leaves them
unchanged as well. -/
theorem C9_configFrame (st : config.ConfigState) (opt flags value : Nat) :
    (flags &&& BASSCONFIG_PTR ≠ 0 →
      (config.Handler opt flags value st).1 = false ∧
      (config.Handler opt flags value st).2.1 = st) ∧
    (opt ≠ BASS_CONFIG_RAW_FREQ → opt ≠ BASS_CONFIG_RAW_CHANS →
      (config.Handler opt flags value st).1 = false ∧
      (config.Handler opt flags value st).2.1 = st) ∧
    (flags &&& BASSCONFIG_SET = 0 →
      (config.Handler opt flags value st).2.1 = st) := by
  refine ⟨fun h => ?_, fun h1 h2 => ?_, fun h => ?_⟩
  · simp [config.Handler, h]
  · by_cases hp : flags &&& BASSCONFIG_PTR = 0 <;>
      simp [config.Handler, hp, h1, h2]
  · by_cases hp : flags &&& BASSCONFIG_PTR = 0 <;>
      by_cases hf : opt = BASS_CONFIG_RAW_FREQ <;>
      by_cases hc : opt = BASS_CONFIG_RAW_CHANS <;>
      simp [config.Handler, hp, hf, hc, h,
        (by decide : BASS_CONFIG_RAW_CHANS ≠ BASS_CONFIG_RAW_FREQ)]

/-- Claim C9 witness: the three frame conditions at concrete calls. -/
theorem C9_witness :
    (config.Handler BASS_CONFIG_RAW_FREQ BASSCONFIG_PTR 0
        { freq := 44100, chans := 2 }).1 = false ∧
    (config.Handler 999 0 0 { freq := 44100, chans := 2 }).2.1 =
      { freq := 44100, chans := 2 } ∧
    (config.Handler BASS_CONFIG_RAW_FREQ 0 0
        { freq := 44100, chans := 2 }).2.1 = { freq := 44100, chans := 2 } :=
  ⟨((C9_configFrame { freq := 44100, chans := 2 } BASS_CONFIG_RAW_FREQ
      BASSCONFIG_PTR 0).1 (by decide)).1,
   ((C9_configFrame { freq := 44100, chans := 2 } 999 0 0).2.1
      (by decide) (by decide)).2,
   (C9_configFrame { freq := 44100, chans := 2 } BASS_CONFIG_RAW_FREQ 0 0).2.2
      (by decide)⟩

/-- Unlink loop helper: a chain containing no matching handle is returned
unchanged. -/
theorem removeSyncLoop_of_forall_ne {l : List SYNC} {h : Nat}
    (hn : ∀ x ∈ l, x.handle ≠ h) : removeSyncLoop l h = l := by
  induction l with
  | nil => rfl
  | cons x rest ih =>
      have hx : x.handle ≠ h := hn x (List.mem_cons_self x rest)
      simp [removeSyncLoop, hx]
      exact ih fun y hy => hn y (List.mem_cons_of_mem x hy)

/-- Unlink loop helper: the first matching node is removed and every other
node kept in order. -/
theorem removeSyncLoop_first {l1 : List SYNC} (x : SYNC) (l2 : List SYNC)
    (h : Nat) (hx : x.handle = h) (hn : ∀ y ∈ l1, y.handle ≠ h) :
    removeSyncLoop (l1 ++ x :: l2) h = l1 ++ l2 := by
  induction l1 with
  | nil => simp [removeSyncLoop, hx]
  | cons y rest ih =>
      have hy : y.handle ≠ h := hn y (List.mem_cons_self y rest)
      simp [removeSyncLoop, hy]
      exact ih fun z hz => hn z (List.mem_cons_of_mem y hz)

/-- Claim C10: RemoveSync removes exactly the first sync whose handle
matches, keeping every other sync in its original order, and leaves the
stream untouched when no sync matches. -/
theorem C10_removeSync (s : RAWSTREAM) (h : Nat) :
    ((∀ x ∈ s.syncs, x.handle ≠ h) → s.RemoveSync h = s) ∧
    (∀ l1 x l2, s.syncs = l1 ++ x :: l2 → x.handle = h →
      (∀ y ∈ l1, y.handle ≠ h) → (s.RemoveSync h).syncs = l1 ++ l2) := by
  constructor
  · intro hn
    cases s with
    | mk f len sy del ns =>
        simp only [RAWSTREAM.RemoveSync]
        rw [removeSyncLoop_of_forall_ne hn]
  · intro l1 x l2 heq hx hn
    show removeSyncLoop s.syncs h = l1 ++ l2
    rw [heq]
    exact removeSyncLoop_first x l2 h hx hn

/-- Claim C10 witness: removing handle 2 from a three-sync list deletes
only the first sync with that handle and keeps order. -/
theorem C10_witness :
    (RAWSTREAM.RemoveSync
      { file := { data := [], pos := 0 }, length := 0,
        syncs := [{ handle := 1, type := 0, param := 0 },
                  { handle := 2, type := 0, param := 0 },
                  { handle := 2, type := 5, param := 5 }],
        delivered := 0, nextSync := 3 } 2).syncs =
      [{ handle := 1, type := 0, param := 0 },
       { handle := 2, type := 5, param := 5 }] :=
  (C10_removeSync
    { file := { data := [], pos := 0 }, length := 0,
      syncs := [{ handle := 1, type := 0, param := 0 },
                { handle := 2, type := 0, param := 0 },
                { handle := 2, type := 5, param := 5 }],
      delivered := 0, nextSync := 3 } 2).2
    [{ handle := 1, type := 0, param := 0 }]
    { handle := 2, type := 0, param := 0 }
    [{ handle := 2, type := 5, param := 5 }]
    rfl rfl (by decide)

/-- Bit helper: OR-ing the END flag into a count below 2^31 keeps the low
31 bits equal to the count. -/
theorem lor_end_and_low (c : Nat) (h : c < 2147483648) :
    (c ||| 2147483648) &&& 2147483647 = c := by
  have e : (2147483648 : Nat) = 2 ^ 31 := by norm_num
  have e2 : (2147483647 : Nat) = 2 ^ 31 - 1 := by norm_num
  rw [e] at h
  rw [e, e2]
  apply Nat.eq_of_testBit_eq
  intro i
  rw [Nat.testBit_land, Nat.testBit_lor, Nat.testBit_two_pow_sub_one,
    Nat.testBit_two_pow]
  by_cases hi : i < 31
  · simp [hi, ne_of_gt hi]
  · have hge : 31 ≤ i := Nat.le_of_not_lt hi
    have hc : Nat.testBit c i = false :=
      Nat.testBit_lt_two_pow
        (lt_of_lt_of_le h (Nat.pow_le_pow_right (by norm_num) hge))
    simp [hi, hc]

/-- Bit helper: a count below 2^31 is unchanged by the low-31-bit mask. -/
theorem land_low_self (c : Nat) (h : c < 2147483648) :
    c &&& 2147483647 = c := by
  have e2 : (2147483647 : Nat) = 2 ^ 31 - 1 := by norm_num
  rw [e2]
  exact Nat.and_pow_two_sub_one_of_lt_two_pow (by omega)

/-- Bit helper: the END bit of a value with the END flag OR-ed in is set. -/
theorem lor_end_and_high (c : Nat) :
    (c ||| 2147483648) &&& 2147483648 = 2147483648 := by
  have e : (2147483648 : Nat) = 2 ^ 31 := by norm_num
  rw [e, Nat.and_two_pow, Nat.testBit_lor, Nat.testBit_two_pow_self]
  simp

/-- Bit helper: the END bit of a count below 2^31 is clear. -/
theorem land_high_eq_zero (c : Nat) (h : c < 2147483648) :
    c &&& 2147483648 = 0 := by
  have e : (2147483648 : Nat) = 2 ^ 31 := by norm_num
  rw [e, Nat.and_two_pow, Nat.testBit_lt_two_pow (by omega)]
  simp

/-- Claim C7: StreamProc's returned byte count (its low 31 bits) equals
the number of bytes read from the file, which is at most the requested
length; the END flag is set exactly when the file then reports
end-of-file; and in that case the stream's recorded length becomes the
current delivered-byte position plus the bytes returned, while otherwise
it is unchanged. -/
theorem C7_streamProc (s : RAWSTREAM) (len : Nat) (hlen : len < 0x80000000) :
    (fileRead s.file len).1 ≤ len ∧
    (s.StreamProc len).1 &&& 0x7fffffff = (fileRead s.file len).1 ∧
    (((s.StreamProc len).1 &&& 0x80000000 ≠ 0) ↔
        fileEof (fileRead s.file len).2 = true) ∧
    (fileEof (fileRead s.file len).2 = true →
      (s.StreamProc len).2.length = s.delivered + (fileRead s.file len).1) ∧
    (fileEof (fileRead s.file len).2 = false →
      (s.StreamProc len).2.length = s.length) := by
  have hc : (fileRead s.file len).1 ≤ len := Nat.min_le_left _ _
  have hclt : (fileRead s.file len).1 < 2147483648 := lt_of_le_of_lt hc hlen
  cases hfe : fileEof (fileRead s.file len).2 with
  | false =>
      have h1 : (s.StreamProc len).1 = (fileRead s.file len).1 := by
        simp [RAWSTREAM.StreamProc, hfe]
      have h2 : (s.StreamProc len).2.length = s.length := by
        simp [RAWSTREAM.StreamProc, hfe]
      refine ⟨hc, ?_, ?_, fun ht => by simp at ht, fun _ => h2⟩
      · rw [h1]
        exact land_low_self _ hclt
      · rw [h1, land_high_eq_zero _ hclt]
        simp
  | true =>
      have h1 : (s.StreamProc len).1 =
          (fileRead s.file len).1 ||| 2147483648 := by
        simp [RAWSTREAM.StreamProc, hfe, BASS_STREAMPROC_END]
      have h2 : (s.StreamProc len).2.length =
          s.delivered + (fileRead s.file len).1 := by
        simp [RAWSTREAM.StreamProc, hfe]
      refine ⟨hc, ?_, ?_, fun _ => h2, fun hf => by simp at hf⟩
      · rw [h1]
        exact lor_end_and_low _ hclt
      · rw [h1, lor_end_and_high]
        simp

/-- Claim C7 witness: pulling 5 bytes from a 3-byte file returns a byte
count of 3 with the END flag set and records length 3. -/
theorem C7_witness :
    (RAWSTREAM.StreamProc (streamCreate [1, 2, 3]) 5).1 &&& 0x7fffffff =
      (fileRead (streamCreate [1, 2, 3]).file 5).1 ∧
    (RAWSTREAM.StreamProc (streamCreate [1, 2, 3]) 5).2.length = 3 :=
  ⟨(C7_streamProc (streamCreate [1, 2, 3]) 5 (by decide)).2.1,
   by
     have h := (C7_streamProc (streamCreate [1, 2, 3]) 5 (by decide)).2.2.2.1
       (by decide)
     simpa [streamCreate, fileRead] using h⟩

